import Mathlib

/-!
Verification of the YFinanceApp client-side session/auth layer, notification
store, and watchlist API-call orchestration, shallowly embedded in Lean 4.

Conventions of the embedding:
* JavaScript `null`/`undefined` values are `Option.none`; strings are `String`.
* JS string truthiness (empty string is falsy) is `truthyStr`.
* The Pinia auth store (`auth_store.js`) is the record `AuthState`; its
  in-memory refs and the two sessionStorage keys are separate fields, and each
  store action is a pure state transformer.
* The message store (`message_store.js`) is `MsgState`: the flash string plus
  the list of pending `setTimeout` clear callbacks, each recorded as its
  absolute fire time and the message value captured by its closure.  The
  single-threaded event loop is `runEvents`/`fireDue`: user actions and due
  timers are applied in time order.
* Each view function that talks to the backend is a pure function of the
  responses the backend would return; it also returns the list of HTTP
  requests it issued, so that "no request is sent" is a provable statement.
-/

namespace YFinance

/-- JS truthiness of a nullable string: `null`/`undefined` and `""` are falsy. -/
def truthyStr : Option String → Bool
  | none => false
  | some s => s ≠ ""

/-- A logged-in user record, as persisted under `user_data`.
`id` is `none` when the field is missing from the record. -/
structure User where
  id : Option Int
  username : String
  deriving Repr, DecidableEq

/-- JS truthiness of the optional numeric `id` field: missing and `0` are falsy. -/
def truthyId : Option Int → Bool
  | none => false
  | some n => n ≠ 0

/-- The auth store's state: the two in-memory refs (`token`, `logged_user`)
and the two sessionStorage entries (`auth_token`, `user_data`). -/
structure AuthState where
  token : Option String
  logged_user : Option User
  storage_auth_token : Option String
  storage_user_data : Option User
  deriving Repr, DecidableEq

/-- `backend_server` constant of the auth store. -/
def backend_server : String := "http://127.0.0.1:5001"

/-- `getBackendServerURL()`. -/
def getBackendServerURL (_s : AuthState) : String := backend_server

/-- `isAuthenticated`: `token.value !== null`.  (An empty-string token is not
`null`, so it counts as authenticated.) -/
def isAuthenticated (s : AuthState) : Bool := s.token ≠ none

/-- `getToken()`. -/
def getToken (s : AuthState) : Option String := s.token

/-- `setToken(new_token)`: stores the value in the ref unconditionally; writes
the sessionStorage entry when the value is truthy, removes it otherwise. -/
def setToken (new_token : Option String) (s : AuthState) : AuthState :=
  { s with
    token := new_token
    storage_auth_token := if truthyStr new_token then new_token else none }

/-- `setUserData(new_user_data)`: same pattern keyed by `user_data`; any
object is truthy, `null` is falsy. -/
def setUserData (new_user_data : Option User) (s : AuthState) : AuthState :=
  { s with
    logged_user := new_user_data
    storage_user_data := if new_user_data.isSome then new_user_data else none }

/-- `removeAuthUser()`: nulls both refs and removes both storage entries. -/
def removeAuthUser (s : AuthState) : AuthState :=
  { s with
    token := none
    logged_user := none
    storage_auth_token := none
    storage_user_data := none }

/-- `getUserData()`. -/
def getUserData (s : AuthState) : Option User := s.logged_user

/-- `getUserId()`: `logged_user.value?.id || null` — optional chaining then a
truthiness fallback to `null`. -/
def getUserId (s : AuthState) : Option Int :=
  match s.logged_user with
  | none => none
  | some u => if truthyId u.id then u.id else none

end YFinance

namespace YFinance

/-- Claim C7: `removeAuthUser` clears the token and the user record, both in
memory and in persistent storage, in one state transition (the function body
has no suspension point, so the caller observes no intermediate state), and it
is idempotent: applying it twice yields the same state as applying it once. -/
theorem C7_removeAuthUser_clears_both_and_idempotent (s : AuthState) :
    (removeAuthUser s).token = none ∧
    (removeAuthUser s).logged_user = none ∧
    (removeAuthUser s).storage_auth_token = none ∧
    (removeAuthUser s).storage_user_data = none ∧
    removeAuthUser (removeAuthUser s) = removeAuthUser s := by
  simp [removeAuthUser]

/-- Claim C9: `getUserId` returns `null` not only when no user record is
present but for every falsy `id` field: a stored user whose `id` is `0` or
missing projects to `null`, because `|| null` tests truthiness, not presence. -/
theorem C9_getUserId_falsy_id_is_null (s : AuthState) :
    (s.logged_user = none → getUserId s = none) ∧
    (∀ u : User, s.logged_user = some u → (u.id = some 0 ∨ u.id = none) →
      getUserId s = none) ∧
    (∀ u : User, ∀ n : Int, s.logged_user = some u → u.id = some n → n ≠ 0 →
      getUserId s = some n) := by
  refine ⟨fun h => by simp [getUserId, h], fun u hu hid => ?_, fun u n hu hid hn => ?_⟩
  · rcases hid with h0 | hnone
    · simp [getUserId, hu, h0, truthyId]
    · simp [getUserId, hu, hnone, truthyId]
  · simp [getUserId, hu, hid, truthyId, hn]

/-- Witness for C9 at concrete states: a user with `id = 0` projects to
`null`, and a user with `id = 7` projects to `7`. -/
theorem C9_getUserId_falsy_id_is_null_witness :
    getUserId { token := none, logged_user := some { id := some 0, username := "a" },
                storage_auth_token := none, storage_user_data := none } = none ∧
    getUserId { token := none, logged_user := some { id := some 7, username := "a" },
                storage_auth_token := none, storage_user_data := none } = some 7 := by
  constructor
  · exact (C9_getUserId_falsy_id_is_null _).2.1 _ rfl (Or.inl rfl)
  · exact (C9_getUserId_falsy_id_is_null _).2.2 _ 7 rfl rfl (by decide)

/-- Claim C3 as stated is false: `setToken("")` removes the persisted entry,
but the in-memory token becomes the empty string, which is not `null`, so
`isAuthenticated` still returns `true`. -/
theorem C3_counterexample :
    isAuthenticated
      (setToken (some "")
        { token := some "tok", logged_user := none,
          storage_auth_token := some "tok", storage_user_data := none }) = true ∧
    (setToken (some "")
        { token := some "tok", logged_user := none,
          storage_auth_token := some "tok", storage_user_data := none }).storage_auth_token
      = none := by
  constructor <;> rfl

/-- Claim C3 (amended): `isAuthenticated` is true iff the in-memory token is
not `null`.  `setToken(null)` nulls the token and removes the persisted entry,
after which `isAuthenticated` is false; `setToken("")` also removes the
persisted entry, but leaves `isAuthenticated` true, because the in-memory
token becomes `""`, which is not `null`. -/
theorem C3_isAuthenticated_token_only (s : AuthState) :
    (isAuthenticated s = true ↔ s.token ≠ none) ∧
    isAuthenticated (setToken none s) = false ∧
    (setToken none s).storage_auth_token = none ∧
    isAuthenticated (setToken (some "") s) = true ∧
    (setToken (some "") s).storage_auth_token = none := by
  refine ⟨?_, ?_, ?_, ?_, ?_⟩
  · simp [isAuthenticated]
  · simp [isAuthenticated, setToken]
  · simp [setToken, truthyStr]
  · simp [isAuthenticated, setToken]
  · simp [setToken, truthyStr]

end YFinance

namespace YFinance

/-- The message store's state: the current flash string and the pending
`setTimeout` callbacks scheduled by `setFlashMessage`, each recorded as its
absolute fire time (schedule time + 5000 ms) and the message value the
callback's closure captured.  Callbacks are listed in scheduling order; since
every delay is the same 5000 ms, scheduling order is also firing order. -/
structure MsgState where
  flash : String
  timers : List (Nat × String)
  deriving Repr, DecidableEq

/-- The store's initial state: empty message, no pending timer. -/
def initMsgState : MsgState := { flash := "", timers := [] }

/-- The body of one timer callback: clear the flash only if it still equals
the captured value. -/
def fireOne (cap : String) (flash : String) : String :=
  if flash = cap then "" else flash

/-- Run every pending callback whose fire time is ≤ `t`, in list order,
dropping it from the pending list; callbacks not yet due are kept. -/
def fireDueAux (t : Nat) (flash : String) :
    List (Nat × String) → String × List (Nat × String)
  | [] => (flash, [])
  | (ft, cap) :: rest =>
    if ft ≤ t then fireDueAux t (fireOne cap flash) rest
    else
      let r := fireDueAux t flash rest
      (r.1, (ft, cap) :: r.2)

/-- Advance the event loop to time `t`: fire all due clear callbacks. -/
def fireDue (t : Nat) (s : MsgState) : MsgState :=
  let r := fireDueAux t s.flash s.timers
  { flash := r.1, timers := r.2 }

/-- `setFlashMessage(message)` invoked at absolute time `t`: overwrite the
flash and schedule a clear callback for `t + 5000` capturing `message`. -/
def setFlashMessageAt (t : Nat) (message : String) (s : MsgState) : MsgState :=
  { flash := message, timers := s.timers ++ [(t + 5000, message)] }

/-- `clearFlashMessage()`: blank the message immediately; pending timers are
not cancelled. -/
def clearFlashMessage (s : MsgState) : MsgState := { s with flash := "" }

/-- `getFlashMessage()`. -/
def getFlashMessage (s : MsgState) : String := s.flash

/-- A user-initiated message-store action. -/
inductive MsgEvent
  | set (m : String)
  | clear
  deriving Repr, DecidableEq

/-- Apply one user action at time `t`. -/
def applyMsgEvent (t : Nat) (e : MsgEvent) (s : MsgState) : MsgState :=
  match e with
  | .set m => setFlashMessageAt t m s
  | .clear => clearFlashMessage s

/-- Run a time-ordered list of user actions on the single-threaded event
loop: before each action, fire the clear callbacks that are due by then. -/
def runEvents : List (Nat × MsgEvent) → MsgState → MsgState
  | [], s => s
  | (t, e) :: rest, s => runEvents rest (applyMsgEvent t e (fireDue t s))

/-- The flash value observed at time `t` after the given user actions: run
the actions, then fire everything due by `t`. -/
def flashAt (events : List (Nat × MsgEvent)) (t : Nat) : String :=
  getFlashMessage (fireDue t (runEvents events initMsgState))

/-- Claim C2 as stated is false when the second message equals the first:
after `setFlashMessage("A")` at t=0 and `setFlashMessage("A")` again at
t=3000, the first timer's value comparison still matches at t=5000, so it
clears the message — the stored value at 5 s after the first call is `""`,
not the second message. -/
theorem C2_counterexample :
    flashAt [(0, MsgEvent.set "A"), (3000, MsgEvent.set "A")] 5000 = "" ∧
    "" ≠ "A" := by
  constructor
  · rfl
  · decide

/-- Claim C2 (amended): for `setFlashMessage(m1)` at time 0 followed by
`setFlashMessage(m2)` at a time strictly between 0 and 5000 ms with
`m2 ≠ m1`, the timer scheduled by the first call fires at 5000 ms but does
not clear the message, because the current value `m2` differs from its
captured value `m1`: the observed message at 5000 ms is still `m2`.  When
`m2 = m1` the comparison matches and the first timer clears the message at
5000 ms. -/
theorem C2_superseded_timer_never_clears (m1 m2 : String) (t2 : Nat)
    (h1 : 0 < t2) (h2 : t2 < 5000) (hne : m2 ≠ m1) :
    flashAt [(0, MsgEvent.set m1), (t2, MsgEvent.set m2)] 5000 = m2 := by
  have hA : ¬ (5000 ≤ t2) := by omega
  have hB : ¬ (t2 + 5000 ≤ 5000) := by omega
  simp [flashAt, runEvents, applyMsgEvent, setFlashMessageAt, fireDue,
    initMsgState, fireDueAux, clearFlashMessage, getFlashMessage, hA, hB,
    fireOne, hne]

/-- Witness for C2 (amended) at m1 = "A", m2 = "B", t2 = 3000: the message
observed 5 s after the first call is still "B". -/
theorem C2_superseded_timer_never_clears_witness :
    flashAt [(0, MsgEvent.set "A"), (3000, MsgEvent.set "B")] 5000 = "B" :=
  C2_superseded_timer_never_clears "A" "B" 3000 (by decide) (by decide)
    (by decide)

end YFinance

namespace YFinance

/-- An HTTP request issued by the client, identified by method and full URL. -/
structure Request where
  method : String
  url : String
  deriving Repr, DecidableEq

/-- `Response.ok` of the fetch API: status in the range 200–299. -/
def respOk (status : Nat) : Bool := 200 ≤ status && status < 300

/-- JS `toUpperCase()` on the ASCII tickers this client handles. -/
def jsToUpper (s : String) : String := String.mk (s.data.map Char.toUpper)

/-- JS `a || b` on a nullable string `a`: `b` when `a` is `null`/`undefined`
or empty, else `a`. -/
def jsOrElse (a : Option String) (b : String) : String :=
  match a with
  | none => b
  | some s => if s = "" then b else s

/-- A watchlist entry as cached by the views. -/
structure WatchlistItem where
  id : Int
  ticker : String
  notes : String
  deriving Repr, DecidableEq

/-- The client-side state the interceptor and views can touch: the auth
store, the message store, and the router's current route. -/
structure ClientState where
  auth : AuthState
  msg : MsgState
  route : String
  deriving Repr, DecidableEq

/-- The axios response interceptor's rejection handler (`App.vue`), run at
time `t` on an error whose optional response carries `status` (`none` models
a network error with no response).  Returns the resulting client state and
whether the error is re-raised to the caller (`Promise.reject`). -/
def interceptResponseError (t : Nat) (status : Option Nat)
    (s : ClientState) : ClientState × Bool :=
  if status = some 401 ∧ isAuthenticated s.auth then
    ({ auth := removeAuthUser s.auth,
       msg := setFlashMessageAt t "Session expired. Please log in again." s.msg,
       route := "/login" },
     true)
  else (s, true)

/-- Claim C10: the interceptor performs the session-expiry side effects on a
401 only when the auth store is authenticated when the response arrives: an
error whose condition fails (in particular a 401 received while
unauthenticated) is re-raised with the client state untouched, while a 401
received while authenticated clears the session, sets the notification,
redirects to `/login`, and still re-raises. -/
theorem C10_interceptor_requires_authenticated (t : Nat) (status : Option Nat)
    (s : ClientState) :
    (interceptResponseError t status s).2 = true ∧
    (¬ (status = some 401 ∧ isAuthenticated s.auth = true) →
      (interceptResponseError t status s).1 = s) ∧
    (status = some 401 → isAuthenticated s.auth = true →
      isAuthenticated (interceptResponseError t status s).1.auth = false ∧
      (interceptResponseError t status s).1.route = "/login" ∧
      getFlashMessage (interceptResponseError t status s).1.msg
        = "Session expired. Please log in again.") := by
  refine ⟨?_, fun hno => ?_, fun h401 hauth => ?_⟩
  · by_cases h : status = some 401 ∧ isAuthenticated s.auth
    · simp [interceptResponseError, h]
    · simp [interceptResponseError, h]
  · have h : ¬ (status = some 401 ∧ (isAuthenticated s.auth : Prop)) := by
      simpa using hno
    simp [interceptResponseError, h]
  · have hcond : status = some 401 ∧ (isAuthenticated s.auth : Prop) :=
      ⟨h401, hauth⟩
    simp only [interceptResponseError]
    rw [if_pos hcond]
    simp [isAuthenticated, removeAuthUser, getFlashMessage, setFlashMessageAt]

/-- A concrete logged-in auth store state used by concrete-input theorems. -/
def authStateIn : AuthState :=
  { token := some "tok"
    logged_user := some { id := some 7, username := "u" }
    storage_auth_token := some "tok"
    storage_user_data := some { id := some 7, username := "u" } }

/-- A concrete logged-out auth store state. -/
def authStateOut : AuthState :=
  { token := none, logged_user := none
    storage_auth_token := none, storage_user_data := none }

/-- A concrete client state: logged in, empty flash, on the dashboard. -/
def clientIn : ClientState :=
  { auth := authStateIn, msg := initMsgState, route := "/dashboard" }

/-- A concrete client state: logged out, empty flash, on the dashboard. -/
def clientOut : ClientState :=
  { auth := authStateOut, msg := initMsgState, route := "/dashboard" }

/-- Witness for C10 at concrete states: a 401 arriving while unauthenticated
leaves the state untouched and re-raises; a 401 arriving while authenticated
ends unauthenticated on `/login`. -/
theorem C10_interceptor_requires_authenticated_witness :
    (interceptResponseError 0 (some 401) clientOut).1 = clientOut ∧
    (interceptResponseError 0 (some 401) clientOut).2 = true ∧
    isAuthenticated
      (interceptResponseError 0 (some 401) clientIn).1.auth = false ∧
    (interceptResponseError 0 (some 401) clientIn).1.route = "/login" := by
  refine ⟨?_, ?_, ?_, ?_⟩
  · exact (C10_interceptor_requires_authenticated 0 (some 401) clientOut).2.1
      (by decide)
  · exact (C10_interceptor_requires_authenticated 0 (some 401) clientOut).1
  · exact ((C10_interceptor_requires_authenticated 0 (some 401) clientIn).2.2
      rfl (by decide)).1
  · exact ((C10_interceptor_requires_authenticated 0 (some 401) clientIn).2.2
      rfl (by decide)).2.1

end YFinance

namespace YFinance

/-- Outcome of a view's delete call: the requests it issued, the local list
observable while the request is outstanding, and the final client state and
list once the response has been handled. -/
structure DeleteResult where
  requests : List Request
  inFlightList : List WatchlistItem
  finalState : ClientState
  finalList : List WatchlistItem
  deriving Repr, DecidableEq

/-- `DashboardView.deleteFromWatchlist(itemId, itemTicker)`: snapshots the
list, filters the row out immediately (optimistic update), issues the DELETE
over raw `fetch`, and on failure restores the snapshot and flashes the error
message (`errData.error || HTTP status`, with a generic fallback). -/
def dashDeleteFromWatchlist (t : Nat) (itemId : Int) (itemTicker : String)
    (status : Nat) (errBody : Option String) (s : ClientState)
    (wl : List WatchlistItem) : DeleteResult :=
  let original := wl
  let optimistic := wl.filter (fun item => item.id ≠ itemId)
  let req : Request :=
    { method := "DELETE"
      url := backend_server ++ "/api/v1/watchlist/" ++ toString itemId }
  if respOk status then
    { requests := [req]
      inFlightList := optimistic
      finalState := { s with
        msg := setFlashMessageAt t
          (itemTicker ++ " removed from watchlist.") s.msg }
      finalList := optimistic }
  else
    { requests := [req]
      inFlightList := optimistic
      finalState := { s with
        msg := setFlashMessageAt t
          (jsOrElse (some (jsOrElse errBody ("HTTP " ++ toString status)))
            "Failed to remove from watchlist.") s.msg }
      finalList := original }

/-- `WatchlistView.deleteFromWatchlist(id, ticker)` (the unnamed watchlist
view component): issues the DELETE over raw `fetch` and filters the row out
of the local list only after a successful response; on failure it only
flashes `Error: Failed to delete <ticker>`, leaving list, session and route
untouched.  It performs no 401-specific handling, and, being a `fetch` call,
it never passes through the axios interceptor. -/
def wlViewDeleteFromWatchlist (t : Nat) (id : Int) (ticker : String)
    (status : Nat) (s : ClientState) (wl : List WatchlistItem) :
    DeleteResult :=
  let req : Request :=
    { method := "DELETE"
      url := backend_server ++ "/api/v1/watchlist/" ++ toString id }
  if respOk status then
    { requests := [req]
      inFlightList := wl
      finalState := { s with
        msg := setFlashMessageAt t
          ("Removed " ++ ticker ++ " from watchlist") s.msg }
      finalList := wl.filter (fun item => item.id ≠ id) }
  else
    { requests := [req]
      inFlightList := wl
      finalState := { s with
        msg := setFlashMessageAt t
          ("Error: Failed to delete " ++ ticker) s.msg }
      finalList := wl }

/-- Claim C4 as stated is false for the watchlist view's delete: its local
list while the DELETE request is outstanding still contains the row being
deleted — the removal is not optimistic; the row disappears only after a
successful response. -/
theorem C4_counterexample :
    (wlViewDeleteFromWatchlist 0 1 "TCS" 200 clientIn
        [{ id := 1, ticker := "TCS", notes := "" }]).inFlightList
      = [{ id := 1, ticker := "TCS", notes := "" }] ∧
    ([{ id := 1, ticker := "TCS", notes := "" }] :
        List WatchlistItem).any (fun item => item.id = 1) = true := by
  constructor
  · rfl
  · decide

/-- Claim C4 (amended): `DashboardView.deleteFromWatchlist` is optimistic —
the row is removed from the local list before the request completes — and on
failure the final list is exactly the pre-delete snapshot; the watchlist
view's `deleteFromWatchlist`, by contrast, leaves the list unchanged while
the request is outstanding, removes the row only on success, and on failure
the final list (trivially) equals the pre-delete list. -/
theorem C4_dashboard_delete_optimistic_rollback (t : Nat) (itemId : Int)
    (itemTicker : String) (status : Nat) (errBody : Option String)
    (s : ClientState) (wl : List WatchlistItem) :
    (dashDeleteFromWatchlist t itemId itemTicker status errBody s wl).inFlightList
      = wl.filter (fun item => item.id ≠ itemId) ∧
    (respOk status = false →
      (dashDeleteFromWatchlist t itemId itemTicker status errBody s wl).finalList
        = wl) ∧
    (respOk status = true →
      (dashDeleteFromWatchlist t itemId itemTicker status errBody s wl).finalList
        = wl.filter (fun item => item.id ≠ itemId)) ∧
    (wlViewDeleteFromWatchlist t itemId itemTicker status s wl).inFlightList
      = wl ∧
    (respOk status = false →
      (wlViewDeleteFromWatchlist t itemId itemTicker status s wl).finalList
        = wl) := by
  by_cases h : respOk status
  · simp [dashDeleteFromWatchlist, wlViewDeleteFromWatchlist, h]
  · simp [dashDeleteFromWatchlist, wlViewDeleteFromWatchlist, h]

/-- Witness for C4 (amended) at a concrete failing delete: the dashboard's
in-flight list has the row removed and the final list is restored exactly. -/
theorem C4_dashboard_delete_optimistic_rollback_witness :
    (dashDeleteFromWatchlist 0 1 "TCS" 500 none clientIn
        [{ id := 1, ticker := "TCS", notes := "" },
         { id := 2, ticker := "INFY", notes := "" }]).inFlightList
      = [{ id := 2, ticker := "INFY", notes := "" }] ∧
    (dashDeleteFromWatchlist 0 1 "TCS" 500 none clientIn
        [{ id := 1, ticker := "TCS", notes := "" },
         { id := 2, ticker := "INFY", notes := "" }]).finalList
      = [{ id := 1, ticker := "TCS", notes := "" },
         { id := 2, ticker := "INFY", notes := "" }] := by
  have h := C4_dashboard_delete_optimistic_rollback 0 1 "TCS" 500 none clientIn
    [{ id := 1, ticker := "TCS", notes := "" },
     { id := 2, ticker := "INFY", notes := "" }]
  refine ⟨?_, h.2.1 (by decide)⟩
  rw [h.1]
  decide

end YFinance

namespace YFinance

/-- Outcome of a view's watchlist-retrieval call: requests issued, resulting
client state, resulting local list, and the view's `watchlistError`. -/
structure FetchResult where
  requests : List Request
  finalState : ClientState
  watchlist : List WatchlistItem
  watchlistError : Option String
  deriving Repr, DecidableEq

/-- `DashboardView.fetchWatchlist()`: a strictly sequential two-step flow
over raw `fetch`.  Step 1 GETs `/api/v1/has_watchlist/{userId}`; a 401 there
flashes the session-expired notification, clears the session and redirects
to `/login`; any other failure records the error.  When the
`has_watchlist_records` flag is false the local list is set to `[]` and no
second request is issued; only when it is true is `/api/v1/watchlist/{userId}`
GETted (step 2), whose failure records the error without 401 handling. -/
def dashFetchWatchlist (t : Nat) (checkStatus : Nat) (hasRecords : Bool)
    (checkErr : Option String) (fetchStatus : Nat)
    (fetchBody : Option (List WatchlistItem)) (fetchErr : Option String)
    (s : ClientState) (wl : List WatchlistItem) : FetchResult :=
  match getUserId s.auth with
  | none =>
    { requests := [], finalState := s, watchlist := wl
      watchlistError := some "User not authenticated." }
  | some uid =>
    let checkReq : Request :=
      { method := "GET"
        url := backend_server ++ "/api/v1/has_watchlist/" ++ toString uid }
    let fetchReq : Request :=
      { method := "GET"
        url := backend_server ++ "/api/v1/watchlist/" ++ toString uid }
    if respOk checkStatus then
      if hasRecords then
        if respOk fetchStatus then
          { requests := [checkReq, fetchReq], finalState := s
            watchlist := fetchBody.getD [], watchlistError := none }
        else
          { requests := [checkReq, fetchReq], finalState := s, watchlist := wl
            watchlistError := some (jsOrElse fetchErr "Failed to load watchlist.") }
      else
        { requests := [checkReq], finalState := s, watchlist := []
          watchlistError := none }
    else
      if checkStatus = 401 then
        { requests := [checkReq]
          finalState :=
            { auth := removeAuthUser s.auth
              msg := setFlashMessageAt t
                "Session expired. Please log in again." s.msg
              route := "/login" }
          watchlist := wl, watchlistError := none }
      else
        { requests := [checkReq], finalState := s, watchlist := wl
          watchlistError := some (jsOrElse checkErr "Failed to load watchlist.") }

/-- `SearchView.fetchWatchlist()`: a single GET of
`/api/v1/watchlist/{userId}` over raw `fetch` with no existence check; the
body text is parsed leniently and the local list becomes
`data?.watchlist || []` regardless of the status code.  Errors only log to
the console: state, route and session are never touched. -/
def searchFetchWatchlist (_status : Nat) (body : Option (List WatchlistItem))
    (s : ClientState) (wl : List WatchlistItem) :
    List Request × List WatchlistItem :=
  match getUserId s.auth with
  | none => ([], wl)
  | some uid =>
    ([{ method := "GET"
        url := backend_server ++ "/api/v1/watchlist/" ++ toString uid }],
     body.getD [])

/-- `WatchlistView.fetchWatchlist()` (the unnamed watchlist view): a single
GET of `/api/v1/watchlist/{userId}` over raw `fetch` with no existence
check; on a non-ok status (401 included) it records the error and flashes
`Error: Failed to fetch watchlist`, leaving list, session and route
untouched. -/
def wlViewFetchWatchlist (t : Nat) (status : Nat)
    (body : Option (List WatchlistItem)) (s : ClientState)
    (wl : List WatchlistItem) : FetchResult :=
  match getUserId s.auth with
  | none => { requests := [], finalState := s, watchlist := wl
              watchlistError := none }
  | some uid =>
    let req : Request :=
      { method := "GET"
        url := backend_server ++ "/api/v1/watchlist/" ++ toString uid }
    if respOk status then
      { requests := [req], finalState := s, watchlist := body.getD []
        watchlistError := none }
    else
      { requests := [req]
        finalState := { s with
          msg := setFlashMessageAt t
            "Error: Failed to fetch watchlist" s.msg }
        watchlist := wl
        watchlistError := some "Failed to fetch watchlist" }

/-- Claim C6 as stated is false: `SearchView.fetchWatchlist` is a watchlist
retrieval that issues the full-list GET directly — its one and only request
is `/api/v1/watchlist/7`, not a `has_watchlist` flag check. -/
theorem C6_counterexample :
    (searchFetchWatchlist 200 (some []) clientIn []).1
      = [{ method := "GET"
           url := "http://127.0.0.1:5001/api/v1/watchlist/7" }] ∧
    ({ method := "GET"
       url := "http://127.0.0.1:5001/api/v1/watchlist/7" } : Request).url
      ≠ "http://127.0.0.1:5001/api/v1/has_watchlist/7" := by
  constructor
  · rfl
  · decide

/-- Claim C6 (amended): only `DashboardView.fetchWatchlist` is the
sequential two-step retrieval — it always issues the flag check first, and
when the check succeeds with a false flag it sets the local list to `[]` and
never issues the full-list GET, issuing it exactly when the flag is true;
`SearchView.fetchWatchlist` and the watchlist view's `fetchWatchlist` issue
the full-list GET directly as their only request, with no flag check. -/
theorem C6_two_step_fetch_dashboard_only (t : Nat) (uid : Int)
    (checkStatus : Nat) (hasRecords : Bool) (checkErr : Option String)
    (fetchStatus : Nat) (fetchBody : Option (List WatchlistItem))
    (fetchErr : Option String) (s : ClientState) (wl : List WatchlistItem)
    (hu : getUserId s.auth = some uid) :
    (dashFetchWatchlist t checkStatus hasRecords checkErr fetchStatus
        fetchBody fetchErr s wl).requests
      = { method := "GET"
          url := backend_server ++ "/api/v1/has_watchlist/" ++ toString uid }
        :: (if respOk checkStatus ∧ hasRecords then
              [{ method := "GET"
                 url := backend_server ++ "/api/v1/watchlist/" ++ toString uid }]
            else []) ∧
    (respOk checkStatus = true → hasRecords = false →
      (dashFetchWatchlist t checkStatus hasRecords checkErr fetchStatus
          fetchBody fetchErr s wl).watchlist = []) ∧
    (searchFetchWatchlist fetchStatus fetchBody s wl).1
      = [{ method := "GET"
           url := backend_server ++ "/api/v1/watchlist/" ++ toString uid }] ∧
    (wlViewFetchWatchlist t fetchStatus fetchBody s wl).requests
      = [{ method := "GET"
           url := backend_server ++ "/api/v1/watchlist/" ++ toString uid }] := by
  refine ⟨?_, fun hok hflag => ?_, ?_, ?_⟩
  · by_cases hc : respOk checkStatus
    · by_cases hr : hasRecords
      · by_cases hf : respOk fetchStatus <;>
          simp [dashFetchWatchlist, hu, hc, hr, hf]
      · simp [dashFetchWatchlist, hu, hc, hr]
    · by_cases h401 : checkStatus = 401 <;>
        simp [dashFetchWatchlist, hu, hc, h401,
          (by decide : respOk 401 = false)]
  · simp [dashFetchWatchlist, hu, hok, hflag]
  · simp [searchFetchWatchlist, hu]
  · by_cases hf : respOk fetchStatus <;>
      simp [wlViewFetchWatchlist, hu, hf]

/-- Witness for C6 (amended) at concrete inputs: with user id 7 and a check
response whose flag is false, the dashboard issues only the flag check and
ends with an empty list, while the other two views issue the full-list GET
directly. -/
theorem C6_two_step_fetch_dashboard_only_witness :
    (dashFetchWatchlist 0 200 false none 200 (some []) none clientIn []).requests
      = [{ method := "GET"
           url := "http://127.0.0.1:5001/api/v1/has_watchlist/7" }] ∧
    (dashFetchWatchlist 0 200 false none 200 (some []) none clientIn []).watchlist
      = [] ∧
    (wlViewFetchWatchlist 0 200 (some []) clientIn []).requests
      = [{ method := "GET"
           url := "http://127.0.0.1:5001/api/v1/watchlist/7" }] := by
  have h := C6_two_step_fetch_dashboard_only 0 7 200 false none 200 (some [])
    none clientIn [] (by decide)
  refine ⟨?_, h.2.1 rfl rfl, ?_⟩
  · rw [h.1]
    decide
  · rw [h.2.2.2]
    decide

/-- Claim C1 as stated is false: the watchlist view's delete call receiving
an HTTP 401 leaves the session intact and does not navigate to `/login` —
the call is made with raw `fetch`, so the axios 401 interceptor never sees
it, and the view's own handler only flashes an error message. -/
theorem C1_counterexample :
    isAuthenticated
      (wlViewDeleteFromWatchlist 0 1 "TCS" 401 clientIn
        [{ id := 1, ticker := "TCS", notes := "" }]).finalState.auth = true ∧
    (wlViewDeleteFromWatchlist 0 1 "TCS" 401 clientIn
        [{ id := 1, ticker := "TCS", notes := "" }]).finalState.route
      = "/dashboard" ∧
    (wlViewDeleteFromWatchlist 0 1 "TCS" 401 clientIn
        [{ id := 1, ticker := "TCS", notes := "" }]).finalState.auth
      = clientIn.auth := by
  refine ⟨?_, ?_, ?_⟩ <;> rfl

/-- Claim C1 (amended): of the watchlist calls, only the dashboard's
existence check handles a 401 by clearing the session and redirecting to
`/login` (with the session-expired flash); the watchlist view's delete —
made through raw `fetch` and so never seen by the axios interceptor — leaves
the session, the route and the local list unchanged on a 401, merely
flashing an error, and the watchlist view's fetch likewise leaves session
and route unchanged on a 401. -/
theorem C1_watchlist_401_handling (t : Nat) (uid : Int) (id : Int)
    (ticker : String) (hasRecords : Bool) (checkErr : Option String)
    (fetchStatus : Nat) (fetchBody : Option (List WatchlistItem))
    (fetchErr : Option String) (s : ClientState) (wl : List WatchlistItem)
    (hu : getUserId s.auth = some uid) :
    (isAuthenticated
        (dashFetchWatchlist t 401 hasRecords checkErr fetchStatus fetchBody
          fetchErr s wl).finalState.auth = false ∧
      (dashFetchWatchlist t 401 hasRecords checkErr fetchStatus fetchBody
          fetchErr s wl).finalState.route = "/login" ∧
      getFlashMessage
        (dashFetchWatchlist t 401 hasRecords checkErr fetchStatus fetchBody
          fetchErr s wl).finalState.msg
        = "Session expired. Please log in again.") ∧
    ((wlViewDeleteFromWatchlist t id ticker 401 s wl).finalState.auth = s.auth ∧
      (wlViewDeleteFromWatchlist t id ticker 401 s wl).finalState.route
        = s.route ∧
      (wlViewDeleteFromWatchlist t id ticker 401 s wl).finalList = wl) ∧
    ((wlViewFetchWatchlist t 401 fetchBody s wl).finalState.auth = s.auth ∧
      (wlViewFetchWatchlist t 401 fetchBody s wl).finalState.route = s.route) := by
  have h401 : respOk 401 = false := by decide
  refine ⟨?_, ?_, ?_⟩
  · simp [dashFetchWatchlist, hu, h401, isAuthenticated, removeAuthUser,
      getFlashMessage, setFlashMessageAt]
  · simp [wlViewDeleteFromWatchlist, h401]
  · simp [wlViewFetchWatchlist, hu, h401]

/-- Witness for C1 (amended) at concrete inputs: a 401 on the dashboard's
existence check ends logged out on `/login`, while a 401 on the watchlist
view's delete leaves the session as it was. -/
theorem C1_watchlist_401_handling_witness :
    isAuthenticated
      (dashFetchWatchlist 0 401 true none 200 (some []) none clientIn
        []).finalState.auth = false ∧
    (wlViewDeleteFromWatchlist 0 1 "TCS" 401 clientIn []).finalState.auth
      = clientIn.auth := by
  have h := C1_watchlist_401_handling 0 7 1 "TCS" true none 200 (some [])
    none clientIn [] (by decide)
  exact ⟨h.1.1, h.2.1.1⟩

end YFinance

namespace YFinance

/-- `DashboardView`'s `isTickerInWatchlist` helper: false for a falsy
ticker, else true iff some cached entry's ticker equals the uppercased
input exactly. -/
def dashIsTickerInWatchlist (wl : List WatchlistItem) (ticker : String) :
    Bool :=
  if ticker = "" then false
  else wl.any (fun item => item.ticker = jsToUpper ticker)

/-- `SearchView`'s `isTickerInWatchlist` helper: true iff some cached
entry's ticker equals the uppercased input exactly (no falsiness guard). -/
def searchIsTickerInWatchlist (wl : List WatchlistItem) (ticker : String) :
    Bool :=
  wl.any (fun item => item.ticker = jsToUpper ticker)

/-- Outcome of an add-to-watchlist call: requests issued, resulting client
state, and whether the view re-fetches the watchlist afterwards (the local
list is only updated through that re-fetch). -/
structure AddResult where
  requests : List Request
  finalState : ClientState
  refetch : Bool
  deriving Repr, DecidableEq

/-- `DashboardView.addToWatchlist(ticker)`: returns immediately when the
ticker is falsy or already cached; throws (and flashes) when the user id is
falsy; otherwise POSTs to `/api/v1/watchlist/add` with the uppercased
ticker, flashing and re-fetching on success, flashing
`data.message || HTTP status` on failure.  (The `isNaN` guard on the numeric
user id can never fire once the id is a number.) -/
def dashAddToWatchlist (t : Nat) (ticker : String) (status : Nat)
    (respMsg : Option String) (s : ClientState) (wl : List WatchlistItem) :
    AddResult :=
  if ticker = "" ∨ dashIsTickerInWatchlist wl ticker then
    { requests := [], finalState := s, refetch := false }
  else
    match getUserId s.auth with
    | none =>
      { requests := []
        finalState := { s with
          msg := setFlashMessageAt t "Invalid User ID: null" s.msg }
        refetch := false }
    | some _uid =>
      let req : Request :=
        { method := "POST", url := backend_server ++ "/api/v1/watchlist/add" }
      if respOk status then
        { requests := [req]
          finalState := { s with
            msg := setFlashMessageAt t
              (jsToUpper ticker ++ " added to watchlist.") s.msg }
          refetch := true }
      else
        { requests := [req]
          finalState := { s with
            msg := setFlashMessageAt t
              (jsOrElse respMsg ("HTTP " ++ toString status)) s.msg }
          refetch := false }

/-- `SearchView.addToWatchlist(ticker)`: redirects to `/login` with a flash
when the user id is falsy; flashes `<ticker> already in watchlist.` and
returns — sending nothing — when the ticker is already cached; otherwise
POSTs to `/api/v1/watchlist/add`, flashing and re-fetching on success and
flashing `data?.message || Failed to add.` when the status is non-ok or the
body is unparsable. -/
def searchAddToWatchlist (t : Nat) (ticker : String) (status : Nat)
    (parsed : Bool) (respMsg : Option String) (s : ClientState)
    (wl : List WatchlistItem) : AddResult :=
  match getUserId s.auth with
  | none =>
    { requests := []
      finalState := { s with
        msg := setFlashMessageAt t "Please log in to save watchlist." s.msg
        route := "/login" }
      refetch := false }
  | some _uid =>
    if searchIsTickerInWatchlist wl ticker then
      { requests := []
        finalState := { s with
          msg := setFlashMessageAt t (ticker ++ " already in watchlist.") s.msg }
        refetch := false }
    else
      let req : Request :=
        { method := "POST", url := backend_server ++ "/api/v1/watchlist/add" }
      if respOk status && parsed then
        { requests := [req]
          finalState := { s with
            msg := setFlashMessageAt t (ticker ++ " added to watchlist.") s.msg }
          refetch := true }
      else
        { requests := [req]
          finalState := { s with
            msg := setFlashMessageAt t (jsOrElse respMsg "Failed to add.") s.msg }
          refetch := false }

/-- Claim C5 as stated is false for `SearchView.addToWatchlist`: adding a
ticker already cached (here "TCS") sends no request but does change state —
the flash message becomes `TCS already in watchlist.` where it was empty. -/
theorem C5_counterexample :
    (searchAddToWatchlist 0 "TCS" 200 true none clientIn
        [{ id := 1, ticker := "TCS", notes := "" }]).requests = [] ∧
    getFlashMessage
      (searchAddToWatchlist 0 "TCS" 200 true none clientIn
        [{ id := 1, ticker := "TCS", notes := "" }]).finalState.msg
      = "TCS already in watchlist." ∧
    getFlashMessage clientIn.msg = "" := by
  refine ⟨?_, ?_, ?_⟩ <;> rfl

/-- Claim C5 (amended): when the uppercased ticker already appears in the
locally cached list, no HTTP request is sent and the cached watchlist is not
touched; `DashboardView.addToWatchlist` then changes nothing at all, while
`SearchView.addToWatchlist` (for a logged-in user) additionally sets an
`already in watchlist` flash message. -/
theorem C5_duplicate_add_sends_nothing (t : Nat) (ticker : String)
    (status : Nat) (parsed : Bool) (respMsg : Option String)
    (s : ClientState) (wl : List WatchlistItem) (uid : Int)
    (hdup : wl.any (fun item => item.ticker = jsToUpper ticker) = true)
    (hu : getUserId s.auth = some uid) :
    (dashAddToWatchlist t ticker status respMsg s wl).requests = [] ∧
    (dashAddToWatchlist t ticker status respMsg s wl).finalState = s ∧
    (dashAddToWatchlist t ticker status respMsg s wl).refetch = false ∧
    (searchAddToWatchlist t ticker status parsed respMsg s wl).requests = [] ∧
    (searchAddToWatchlist t ticker status parsed respMsg s wl).finalState.auth
      = s.auth ∧
    (searchAddToWatchlist t ticker status parsed respMsg s wl).finalState.route
      = s.route ∧
    (searchAddToWatchlist t ticker status parsed respMsg s wl).refetch
      = false ∧
    getFlashMessage
      (searchAddToWatchlist t ticker status parsed respMsg s wl).finalState.msg
      = ticker ++ " already in watchlist." := by
  have hdash : ticker = "" ∨ (dashIsTickerInWatchlist wl ticker : Prop) := by
    by_cases he : ticker = ""
    · exact Or.inl he
    · exact Or.inr (by simp [dashIsTickerInWatchlist, he, hdup])
  have hsearch : searchIsTickerInWatchlist wl ticker = true := by
    simp [searchIsTickerInWatchlist, hdup]
  refine ⟨?_, ?_, ?_, ?_, ?_, ?_, ?_, ?_⟩ <;>
    simp [dashAddToWatchlist, searchAddToWatchlist, hdash, hsearch, hu,
      getFlashMessage, setFlashMessageAt]

/-- Witness for C5 (amended) at a concrete duplicate add: ticker "tcs"
against a cache holding "TCS", logged in as user 7: the dashboard variant
changes nothing and the search variant only flashes. -/
theorem C5_duplicate_add_sends_nothing_witness :
    (dashAddToWatchlist 0 "tcs" 200 none clientIn
        [{ id := 1, ticker := "TCS", notes := "" }]).finalState = clientIn ∧
    (searchAddToWatchlist 0 "tcs" 200 true none clientIn
        [{ id := 1, ticker := "TCS", notes := "" }]).requests = [] := by
  have h := C5_duplicate_add_sends_nothing 0 "tcs" 200 true none clientIn
    [{ id := 1, ticker := "TCS", notes := "" }] 7 (by decide) (by decide)
  exact ⟨h.2.1, h.2.2.2.1⟩

end YFinance

namespace YFinance

/-- The `analysis` record of an `/api/v1/analyze` response body; each field
is `none` when absent from the JSON. -/
structure AnalysisResp where
  ticker : Option String
  company_name : Option String
  exchange : Option String
  last_price : Option String
  previous_close : Option String
  open_price : Option String
  day_high : Option String
  day_low : Option String
  volume : Option String
  change_percent : Option String
  market_cap : Option String
  sector : Option String
  industry : Option String
  employees : Option String
  summary : Option String
  deriving Repr, DecidableEq

/-- One element of the `news_headlines` list of an analyze response. -/
structure NewsItem where
  title : String
  link : String
  source : String
  published_at : String
  deriving Repr, DecidableEq

/-- The whole `/api/v1/analyze` response body. -/
structure AnalyzePayload where
  analysis : AnalysisResp
  news_headlines : Option (List NewsItem)
  deriving Repr, DecidableEq

/-- The `analysisResults` view state built by `DashboardView.getAnalysis`:
`ticker`, `company_name` and `exchange` are copied through without a
default, the remaining fields get `analysis.x || sentinel`. -/
structure AnalysisView where
  ticker : Option String
  company_name : Option String
  exchange : Option String
  last_price : String
  previous_close : String
  open_price : String
  day_high : String
  day_low : String
  volume : String
  change_percent : String
  market_cap : String
  sector : String
  industry : String
  employees : String
  summary : String
  deriving Repr, DecidableEq

/-- The field-by-field mapping of `DashboardView.getAnalysis`. -/
def mapAnalysis (a : AnalysisResp) : AnalysisView :=
  { ticker := a.ticker
    company_name := a.company_name
    exchange := a.exchange
    last_price := jsOrElse a.last_price "N/A"
    previous_close := jsOrElse a.previous_close "N/A"
    open_price := jsOrElse a.open_price "N/A"
    day_high := jsOrElse a.day_high "N/A"
    day_low := jsOrElse a.day_low "N/A"
    volume := jsOrElse a.volume "N/A"
    change_percent := jsOrElse a.change_percent "N/A"
    market_cap := jsOrElse a.market_cap "N/A"
    sector := jsOrElse a.sector "N/A"
    industry := jsOrElse a.industry "N/A"
    employees := jsOrElse a.employees "N/A"
    summary := jsOrElse a.summary "No summary available." }

/-- `DashboardView.getAnalysis` splits the payload into the mapped analysis
record and `data.news_headlines || []`. -/
def getAnalysisSplit (d : AnalyzePayload) : AnalysisView × List NewsItem :=
  (mapAnalysis d.analysis, d.news_headlines.getD [])

/-- An analyze response whose analysis record has every field absent. -/
def emptyAnalysisResp : AnalysisResp :=
  { ticker := none, company_name := none, exchange := none
    last_price := none, previous_close := none, open_price := none
    day_high := none, day_low := none, volume := none
    change_percent := none, market_cap := none, sector := none
    industry := none, employees := none, summary := none }

/-- Claim C8 as stated is false: `company_name` (like `ticker` and
`exchange`) is copied into the view state without any default, so when it is
absent from the response the mapped field is `undefined`, not an "N/A"
sentinel — while a defaulted field such as `last_price` does become "N/A". -/
theorem C8_counterexample :
    (mapAnalysis emptyAnalysisResp).company_name = none ∧
    (mapAnalysis emptyAnalysisResp).last_price = "N/A" ∧
    (none : Option String) ≠ some "N/A" := by
  refine ⟨rfl, rfl, by decide⟩

/-- Claim C8 (amended): the fetch-analysis mapping splits the response into
the analysis record and the `news_headlines` list (defaulting to `[]` when
absent), and every numeric/text field except the three identity fields
defaults to the "N/A" sentinel when absent (the summary to "No summary
available."); `ticker`, `company_name` and `exchange` are copied through
with no default. -/
theorem C8_analysis_mapping_defaults (a : AnalysisResp)
    (news : Option (List NewsItem)) :
    (getAnalysisSplit { analysis := a, news_headlines := news }
      = (mapAnalysis a, news.getD [])) ∧
    (mapAnalysis a).ticker = a.ticker ∧
    (mapAnalysis a).company_name = a.company_name ∧
    (mapAnalysis a).exchange = a.exchange ∧
    (a.last_price = none → (mapAnalysis a).last_price = "N/A") ∧
    (a.previous_close = none → (mapAnalysis a).previous_close = "N/A") ∧
    (a.open_price = none → (mapAnalysis a).open_price = "N/A") ∧
    (a.day_high = none → (mapAnalysis a).day_high = "N/A") ∧
    (a.day_low = none → (mapAnalysis a).day_low = "N/A") ∧
    (a.volume = none → (mapAnalysis a).volume = "N/A") ∧
    (a.change_percent = none → (mapAnalysis a).change_percent = "N/A") ∧
    (a.market_cap = none → (mapAnalysis a).market_cap = "N/A") ∧
    (a.sector = none → (mapAnalysis a).sector = "N/A") ∧
    (a.industry = none → (mapAnalysis a).industry = "N/A") ∧
    (a.employees = none → (mapAnalysis a).employees = "N/A") ∧
    (a.summary = none → (mapAnalysis a).summary = "No summary available.") := by
  refine ⟨rfl, rfl, rfl, rfl, ?_, ?_, ?_, ?_, ?_, ?_, ?_, ?_, ?_, ?_, ?_, ?_⟩ <;>
    intro h <;> simp [mapAnalysis, jsOrElse, h]

/-- Witness for C8 (amended) at the all-absent analysis record: the split
defaults the news to `[]` and every defaulted field to its sentinel. -/
theorem C8_analysis_mapping_defaults_witness :
    getAnalysisSplit { analysis := emptyAnalysisResp, news_headlines := none }
      = (mapAnalysis emptyAnalysisResp, []) ∧
    (mapAnalysis emptyAnalysisResp).volume = "N/A" ∧
    (mapAnalysis emptyAnalysisResp).summary = "No summary available." := by
  have h := C8_analysis_mapping_defaults emptyAnalysisResp none
  exact ⟨h.1, h.2.2.2.2.2.2.2.2.2.1 rfl, h.2.2.2.2.2.2.2.2.2.2.2.2.2.2.2 rfl⟩

end YFinance
